import Mathlib

/-!
Shallow embedding of `ping_sonar_obstacle_avoidance.py` from the
`underwater_obstacle_avoidance` repository.

The program is a configuration step (`PingSonarObstacleAvoidance.__init__`,
which pushes device settings via `set_device_properties` and opens a CSV
sink) followed by a poll loop calling `range_callback` once per cycle.

Modelling conventions:
  * Python numbers are embedded as exact rationals (`ℚ`) and integers (`ℤ`);
    `MM_TO_M = 0.001` is the exact rational 1/1000.
  * Device responses (dictionaries or `None`) are `Option` of record types
    whose fields are themselves `Option`s; `dict.get(key, default)` becomes
    `Option.getD`.
  * Local variables that hold `None` or a value are `Option`s; Python
    truthiness of such a variable (`if x:`) is `pyTruthy`.
  * Exceptions (`raise RuntimeError`, `None >= int` TypeError, attribute
    access on `None`, `time.sleep` argument errors) are an explicit `PyErr`
    result; functions return the device-call trace / updated sink state
    together with `Except PyErr _` so that effects that happened before an
    exception remain observable.
  * External effects that carry no data relevant to the claims (serial/UDP
    connect, console prints, the actual sleeping) are not given state; the
    outcome of `self.ping.initialize()` is a `Bool` parameter.
-/

/-- Module-level constant `MM_TO_M = 0.001` (line 43). -/
def MM_TO_M : ℚ := 0.001

/-- Python `int(...)` on a float: truncation toward zero. -/
def pyInt (q : ℚ) : ℤ := if 0 ≤ q then ⌊q⌋ else ⌈q⌉

/-- Python exceptions that the modelled code can raise. -/
inductive PyErr where
  | typeError
  | runtimeError (msg : String)
  | attributeError
  | zeroDivisionError
  | valueError
deriving DecidableEq

/-- Python truthiness of an `Option ℚ` variable (`None` and `0.0` are falsy). -/
def pyTruthy (x : Option ℚ) : Bool :=
  match x with
  | none => false
  | some q => q != 0

/-- Python `x >= n` where `x` may be `None`: `None >= int` raises `TypeError`. -/
def pyGe (x : Option ℤ) (n : ℤ) : Except PyErr Bool :=
  match x with
  | none => .error .typeError
  | some v => .ok (n ≤ v)

/-- Response of `Ping1D.get_profile()` when it returns data: a dictionary
whose keys are read with `data.get(key, default)`. -/
structure ProfileData where
  distance : Option ℤ := none
  confidence : Option ℤ := none
  transmit_duration : Option ℤ := none
  ping_number : Option ℤ := none
  scan_start : Option ℤ := none
  scan_length : Option ℤ := none
  gain_setting : Option ℤ := none
  profile_data : Option (List ℤ) := none
deriving DecidableEq

/-- Response of `Ping1D.get_speed_of_sound()` when it returns data. -/
structure SosInfo where
  speed_of_sound : Option ℚ := none
deriving DecidableEq

/-- Response of `Ping1D.get_general_info()` when it returns data. -/
structure GeneralInfo where
  firmware_version_major : Option ℤ := none
  firmware_version_minor : Option ℤ := none
  ping_interval : Option ℤ := none
  gain_setting : Option ℤ := none
  mode_auto : Option ℤ := none
deriving DecidableEq

/-- Value of the local `profile_data` after `data.get('profile_data', 0)`:
either the byte sequence from the device or the integer default `0`. -/
inductive ProfileDataField where
  | bytes (bs : List ℤ)
  | intVal (n : ℤ)
deriving DecidableEq

/-- One CSV data row, in the fixed column order of lines 197-201. -/
structure RowData where
  time : ℚ
  distance : Option ℚ
  confidence : Option ℤ
  transmit_duration : Option ℤ
  ping_number : Option ℤ
  max_range : Option ℚ
  gain_setting : Option ℤ
  profile_data : Option ProfileDataField
  speed_of_sound : Option ℚ
  firmware_version_major : Option ℤ
  firmware_version_minor : Option ℤ
  ping_interval : Option ℤ
  mode_auto : Option ℤ
deriving DecidableEq

/-- A row passed to `write_to_csv`: the header row (lines 112-115) or a data
row (lines 197-201). -/
inductive CsvRow where
  | header
  | data (r : RowData)
deriving DecidableEq

/-- One device-configuration write issued by `set_device_properties`. -/
inductive DeviceCall where
  | set_speed_of_sound (v : ℤ)
  | set_range (scan_start scan_length : ℤ)
  | set_ping_interval (ms : ℤ)
  | set_gain_setting (g : ℤ)
  | set_mode_auto (m : ℤ)
deriving DecidableEq

/-- The instance attributes of `PingSonarObstacleAvoidance` set by
`__init__`, together with the CSV sink state (`csv_file` is `true` when
`self.csv_file is not None`; `rows` are the rows written to the sink).
`self.fov = math.radians(fov)` is stored but unused in the logic and is
not carried. `self.ping` (the transport handle) carries no data. -/
structure PsoaState where
  baudrate : ℤ
  ping_port : Option String
  udp_address : Option String
  device_type : String
  poll_rate : ℚ
  min_distance : ℚ
  max_distance : ℚ
  scan_start : ℚ
  scan_range : ℚ
  speed_of_sound : ℚ
  speed_of_sound_mms : ℚ
  min_confidence : ℤ
  gain : ℤ
  ping_interval : ℚ
  mode_auto : Bool
  csv_file : Bool
  rows : List CsvRow
deriving DecidableEq

/-- Constructor parameters of `PingSonarObstacleAvoidance.__init__`
(lines 47-50), with the Python default values. -/
structure InitParams where
  baudrate : ℤ := 115200
  ping_port : Option String := some "COM3"
  udp_address : Option String := none
  device_type : String := "Ping1D"
  poll_rate : ℚ := 20
  min_distance : ℚ := 1
  max_distance : ℚ := 20
  speed_of_sound : ℚ := 343
  min_confidence : ℤ := 30
  gain : ℤ := 3
  ping_interval : ℚ := 150
  mode_auto : Bool := false
  fov : ℚ := 30
  csv_path : String := ""
deriving DecidableEq

namespace PingSonarObstacleAvoidance

/-- The table `self.gain_dict = \x7b0: 0.6, 1: 1.8, 2: 5.5, 3: 12.9, 4: 30.2,
5: 66.1, 6: 144\x7d` (line 102), read with `.get` (line 104). -/
def gain_dict (g : ℤ) : Option ℚ :=
  if g = 0 then some 0.6
  else if g = 1 then some 1.8
  else if g = 2 then some 5.5
  else if g = 3 then some 12.9
  else if g = 4 then some 30.2
  else if g = 5 then some 66.1
  else if g = 6 then some 144
  else none

/-- Method `write_to_csv` (lines 129-131): writes the row only when
`self.csv_file is not None`. -/
def write_to_csv (st : PsoaState) (csv_row : CsvRow) : PsoaState :=
  if st.csv_file then { st with rows := st.rows ++ [csv_row] } else st

/-- Method `set_device_properties` (lines 117-122): the five configuration
writes, in source order. -/
def set_device_properties (st : PsoaState) : List DeviceCall :=
  [ .set_speed_of_sound (pyInt st.speed_of_sound),
    .set_range (pyInt st.scan_start) (pyInt st.scan_range),
    .set_ping_interval (pyInt st.ping_interval),
    .set_gain_setting st.gain,
    .set_mode_auto (if st.mode_auto then 1 else 0) ]

/-- The poll-rate clamp of `__init__` (lines 85-88): `self.poll_rate` is
re-assigned to `5.0` when `<= 5.0`, to `30.0` when `>= 30.0`, and is left
unchanged otherwise. -/
def clamp_poll_rate (poll_rate : ℚ) : ℚ :=
  if poll_rate ≤ 5 then 5
  else if poll_rate ≥ 30 then 30
  else poll_rate

/-- Constructor `__init__` (lines 47-115). Returns the device-call trace that was
issued together with either the constructed state or the exception raised.
`init_ok` is the result of `self.ping.initialize()` (an SDK call).
When `device_type ≠ "Ping1D"`, `self.ping` stays `None` and
`set_device_properties` raises `AttributeError` before issuing any call. -/
def init (p : InitParams) (init_ok : Bool) :
    List DeviceCall × Except PyErr PsoaState :=
  let scan_start := p.min_distance / MM_TO_M
  let scan_range := p.max_distance / MM_TO_M - scan_start
  let speed_of_sound_mms := p.speed_of_sound * MM_TO_M
  let poll_rate := clamp_poll_rate p.poll_rate
  let ping_connected := p.device_type = "Ping1D"
  if ping_connected ∧ init_ok = false then
    ([], .error (.runtimeError "Could not initialize Ping1D"))
  else if (gain_dict p.gain).isNone then
    ([], .error (.runtimeError "Invalid gain setting"))
  else if ¬ ping_connected then
    ([], .error .attributeError)
  else
    let st : PsoaState :=
      { baudrate := p.baudrate
        ping_port := p.ping_port
        udp_address := p.udp_address
        device_type := p.device_type
        poll_rate
        min_distance := p.min_distance
        max_distance := p.max_distance
        scan_start
        scan_range
        speed_of_sound := p.speed_of_sound
        speed_of_sound_mms
        min_confidence := p.min_confidence
        gain := p.gain
        ping_interval := p.ping_interval
        mode_auto := p.mode_auto
        csv_file := false
        rows := [] }
    let trace := set_device_properties st
    let st :=
      if p.csv_path.length > 0 then
        write_to_csv { st with csv_file := true } .header
      else st
    (trace, .ok st)

/-- Method `get_distance` (lines 124-127): returns `self.ping.get_profile()`. -/
def get_distance (profile_resp : Option ProfileData) : Option ProfileData :=
  profile_resp

/-- Method `differentiate_distance` (lines 133-134): the body is `pass`, so
the call returns `None`. -/
def differentiate_distance (_distance_delta _dt : ℚ) : Option ℚ :=
  none

/-- The fields computed inside the `if data:` block of `range_callback`
(lines 156-177): each millimeter quantity is read with default `0` and
multiplied by `MM_TO_M`; `max_range = scan_start + scan_length`. -/
structure ProfileFields where
  distance : ℚ
  confidence : ℤ
  transmit_duration : ℤ
  ping_number : ℤ
  scan_start : ℚ
  scan_length : ℚ
  max_range : ℚ
  gain_setting : ℤ
  profile_data : ProfileDataField
deriving DecidableEq

/-- Lines 156-177 of `range_callback`, as a function of the profile
response `data`. -/
def profile_fields (data : ProfileData) : ProfileFields :=
  let distance : ℚ := (data.distance.getD 0 : ℤ) * MM_TO_M
  let confidence : ℤ := data.confidence.getD 0
  let transmit_duration : ℤ := data.transmit_duration.getD 0
  let ping_number : ℤ := data.ping_number.getD 0
  let scan_start : ℚ := (data.scan_start.getD 0 : ℤ) * MM_TO_M
  let scan_length : ℚ := (data.scan_length.getD 0 : ℤ) * MM_TO_M
  let max_range : ℚ := scan_start + scan_length
  let gain_setting : ℤ := data.gain_setting.getD 0
  let profile_data : ProfileDataField :=
    match data.profile_data with
    | some bs => .bytes bs
    | none => .intVal 0
  { distance, confidence, transmit_duration, ping_number,
    scan_start, scan_length, max_range, gain_setting, profile_data }

/-- The Python return value of `range_callback` (line 203):
`(data, general_info, speed_of_sound)`. -/
abbrev RetVal := Option ProfileData × Option GeneralInfo × Option ℚ

/-- Method `range_callback` (lines 136-203). `current_time` is `time.time()`;
`data`, `speed_of_sound_resp` and `general_info` are the responses of the
three SDK queries this cycle. Returns the state (with any row that was
written to the sink) and either the Python return value or the exception
raised. Key points mirrored from the source:
  * all locals start as `None` (lines 141-154);
  * line 185 tests the local `speed_of_sound` (still `None`), not
    `speed_of_sound_info`, so the assignment on line 186 is guarded by a
    falsy test;
  * line 196 compares `confidence >= 30` where `confidence` may be `None`;
  * line 202 evaluates `1 / self.poll_rate` and sleeps, which raises on a
    zero or negative rate. -/
def range_callback (st : PsoaState) (current_time : ℚ)
    (data : Option ProfileData) (speed_of_sound_resp : Option SosInfo)
    (general_info : Option GeneralInfo) : PsoaState × Except PyErr RetVal :=
  let distance : Option ℚ := none
  let confidence : Option ℤ := none
  let transmit_duration : Option ℤ := none
  let ping_number : Option ℤ := none
  let max_range : Option ℚ := none
  let gain_setting : Option ℤ := none
  let profile_data : Option ProfileDataField := none
  let speed_of_sound : Option ℚ := none
  let firmware_version_major : Option ℤ := none
  let firmware_version_minor : Option ℤ := none
  let ping_interval : Option ℤ := none
  let mode_auto : Option ℤ := none
  let (distance, confidence, transmit_duration, ping_number,
       max_range, gain_setting, profile_data) :=
    match data with
    | some d =>
      let f := profile_fields d
      (some f.distance, some f.confidence, some f.transmit_duration,
       some f.ping_number, some f.max_range, some f.gain_setting,
       some f.profile_data)
    | none =>
      (distance, confidence, transmit_duration, ping_number,
       max_range, gain_setting, profile_data)
  let speed_of_sound_info := speed_of_sound_resp
  let sos_step : Except PyErr (Option ℚ) :=
    if pyTruthy speed_of_sound then
      match speed_of_sound_info with
      | none => .error .attributeError
      | some s => .ok (some (s.speed_of_sound.getD 343 * MM_TO_M))
    else .ok speed_of_sound
  match sos_step with
  | .error e => (st, .error e)
  | .ok speed_of_sound =>
    let (firmware_version_major, firmware_version_minor, ping_interval,
         gain_setting, mode_auto) :=
      match general_info with
      | some g =>
        (some (g.firmware_version_major.getD 0),
         some (g.firmware_version_minor.getD 0),
         some (g.ping_interval.getD 0),
         some (g.gain_setting.getD 0),
         some (g.mode_auto.getD 0))
      | none =>
        (firmware_version_major, firmware_version_minor, ping_interval,
         gain_setting, mode_auto)
    match pyGe confidence 30 with
    | .error e => (st, .error e)
    | .ok b =>
      let st :=
        if b then
          write_to_csv st (.data
            { time := current_time, distance, confidence, transmit_duration,
              ping_number, max_range, gain_setting, profile_data,
              speed_of_sound, firmware_version_major, firmware_version_minor,
              ping_interval, mode_auto })
        else st
      let ret : Except PyErr RetVal :=
        if st.poll_rate = 0 then .error .zeroDivisionError
        else if 1 / st.poll_rate < 0 then .error .valueError
        else .ok (data, general_info, speed_of_sound)
      (st, ret)

/-- The `while True:` driver of `__main__` restricted to a finite list of
per-cycle profile responses, with the two auxiliary queries returning no
data; used to run the simulated response sequences. -/
def run_cycles (st : PsoaState) (resps : List (Option ProfileData)) :
    PsoaState :=
  resps.foldl (fun s r => (range_callback s 0 r none none).1) st

/-- The data row assembled by `range_callback` when the profile query
returned `d` and the general-info query returned `gi` (the sink row of
lines 197-201, with line 186 unreachable so `speed_of_sound` is `none`). -/
def mk_row (t : ℚ) (d : ProfileData) (gi : Option GeneralInfo) : RowData :=
  let f := profile_fields d
  { time := t
    distance := some f.distance
    confidence := some f.confidence
    transmit_duration := some f.transmit_duration
    ping_number := some f.ping_number
    max_range := some f.max_range
    gain_setting :=
      match gi with
      | some g => some (g.gain_setting.getD 0)
      | none => some f.gain_setting
    profile_data := some f.profile_data
    speed_of_sound := none
    firmware_version_major :=
      match gi with
      | some g => some (g.firmware_version_major.getD 0)
      | none => none
    firmware_version_minor :=
      match gi with
      | some g => some (g.firmware_version_minor.getD 0)
      | none => none
    ping_interval :=
      match gi with
      | some g => some (g.ping_interval.getD 0)
      | none => none
    mode_auto :=
      match gi with
      | some g => some (g.mode_auto.getD 0)
      | none => none }

/-- A constructed-state fixture with an open CSV sink and the default
minimum-confidence setting, used to instantiate the per-cycle theorems on
concrete inputs. -/
def open_sink_state : PsoaState :=
  { baudrate := 115200, ping_port := some "COM3", udp_address := none,
    device_type := "Ping1D", poll_rate := 10, min_distance := 1,
    max_distance := 20, scan_start := 1000, scan_range := 19000,
    speed_of_sound := 343, speed_of_sound_mms := 0.343, min_confidence := 30,
    gain := 3, ping_interval := 150, mode_auto := false, csv_file := true,
    rows := [] }

/-- A profile response carrying only a confidence value. -/
def mk_conf_profile (c : ℤ) : ProfileData := { confidence := some c }

/-- The confidence column of the data rows of a sink. -/
def row_confidences (rows : List CsvRow) : List (Option ℤ) :=
  rows.filterMap fun r =>
    match r with
    | .header => none
    | .data rd => some rd.confidence

/-- A state fixture whose configured minimum-confidence threshold is 50. -/
def c2_state : PsoaState :=
  { open_sink_state with min_confidence := 50, rows := [CsvRow.header] }

/-- A profile response with high confidence and no other fields. -/
def c4_profile : ProfileData := { confidence := some 90 }

/-- A speed-of-sound response as the device would send it (mm/s). -/
def c4_sos : SosInfo := { speed_of_sound := some 1481000 }

/-- A profile response with an explicit scan window. -/
def c8_profile : ProfileData :=
  { confidence := some 90, scan_start := some 1000, scan_length := some 19000 }

/-- A profile response at the maximum expected device range. -/
def c9_profile : ProfileData := { distance := some 15953 }

/-- A profile response whose gain differs from the general-info gain. -/
def c10_profile : ProfileData := { confidence := some 90, gain_setting := some 3 }

/-- A general-info response whose gain differs from the profile gain. -/
def c10_info : GeneralInfo := { gain_setting := some 5 }

/-- With no profile data, `range_callback` runs the defaults, skips the
dead speed-of-sound branch, and raises `TypeError` at `confidence >= 30`
(line 196) before reaching `write_to_csv` or the sleep. -/
theorem range_callback_no_data (st : PsoaState) (t : ℚ)
    (sos : Option SosInfo) (gi : Option GeneralInfo) :
    range_callback st t none sos gi = (st, .error .typeError) := by
  cases gi <;> rfl

/-- With profile data, the sink state after `range_callback` is the old
state plus (when the sink is open) the assembled row, written exactly when
the profile confidence clears the literal threshold 30. -/
theorem range_callback_state_data (st : PsoaState) (t : ℚ) (d : ProfileData)
    (sos : Option SosInfo) (gi : Option GeneralInfo) :
    (range_callback st t (some d) sos gi).1 =
      if 30 ≤ d.confidence.getD 0 then
        write_to_csv st (.data (mk_row t d gi))
      else st := by
  by_cases hc : (30 : ℤ) ≤ d.confidence.getD 0 <;>
    cases gi <;>
      simp [range_callback, mk_row, profile_fields, pyGe, pyTruthy, hc]

/-- With profile data, `range_callback` either raises from the sleep
argument or returns `(data, general_info, None)`: the returned
`speed_of_sound` is always `None`. -/
theorem range_callback_ret_data (st : PsoaState) (t : ℚ) (d : ProfileData)
    (sos : Option SosInfo) (gi : Option GeneralInfo) :
    (range_callback st t (some d) sos gi).2 =
      if st.poll_rate = 0 then .error .zeroDivisionError
      else if 1 / st.poll_rate < 0 then .error .valueError
      else .ok (some d, gi, none) := by
  by_cases hc : (30 : ℤ) ≤ d.confidence.getD 0 <;>
    cases gi <;>
      simp [range_callback, write_to_csv, profile_fields, pyGe, pyTruthy, hc] <;>
        split <;> simp

/-- C1: the claim says a cycle whose profile query returns no data writes
no row and completes normally; the code writes no row but raises
`TypeError` at `confidence >= 30` (line 196), because `confidence` is
still `None`, so the cycle does not complete normally and the driving
loop is not reached again. -/
theorem C1_no_data_writes_no_row_but_raises :
    ∀ (st : PsoaState) (t : ℚ) (sos : Option SosInfo) (gi : Option GeneralInfo),
    (range_callback st t none sos gi).1.rows = st.rows ∧
    (range_callback st t none sos gi).2 = .error PyErr.typeError := by
  intro st t sos gi
  simp [range_callback_no_data]

/-- C2 counterexample: with a configured minimum-confidence threshold of 50
and a profile confidence of 40 < 50, a row is still written to the sink,
so writing is not governed by the configured threshold. -/
theorem C2_counterexample :
    c2_state.min_confidence = 50 ∧
    (mk_conf_profile 40).confidence.getD 0 < c2_state.min_confidence ∧
    (range_callback c2_state 0 (some (mk_conf_profile 40)) none none).1.rows.length =
      c2_state.rows.length + 1 := by
  refine ⟨rfl, by norm_num [mk_conf_profile, c2_state, open_sink_state], ?_⟩
  rw [range_callback_state_data]
  norm_num [mk_conf_profile, write_to_csv, c2_state, open_sink_state]

/-- C2 (amended): when the profile query returns data and the sink is open,
a row is written if and only if the confidence is at least the literal 30
hard-coded on line 196, regardless of the configured minimum-confidence
threshold; for the response sequence with confidences [10, 40, 25, 90]
(and threshold 30, which coincides with the literal), exactly the samples
with confidence 40 and 90 are written. -/
theorem C2_amended_hardcoded_threshold :
    (∀ (st : PsoaState) (t : ℚ) (d : ProfileData) (sos : Option SosInfo)
        (gi : Option GeneralInfo), st.csv_file = true →
      ((∃ r, (range_callback st t (some d) sos gi).1.rows
          = st.rows ++ [CsvRow.data r]) ↔ 30 ≤ d.confidence.getD 0)) ∧
    row_confidences (run_cycles open_sink_state
      [some (mk_conf_profile 10), some (mk_conf_profile 40),
       some (mk_conf_profile 25), some (mk_conf_profile 90)]).rows =
      [some 40, some 90] := by
  constructor
  · intro st t d sos gi hcsv
    rw [range_callback_state_data]
    by_cases hc : (30 : ℤ) ≤ d.confidence.getD 0
    · simp [hc, write_to_csv, hcsv]
    · simp [hc]
  · simp [run_cycles, range_callback_state_data, mk_conf_profile,
      write_to_csv, open_sink_state, row_confidences, mk_row, profile_fields]

/-- C2 (amended) witness: at the open sink state and a confidence-40
profile, the written-iff-30 equivalence holds. -/
theorem C2_amended_hardcoded_threshold_witness :
    open_sink_state.csv_file = true ∧
    ((∃ r, (range_callback open_sink_state 0 (some (mk_conf_profile 40)) none none).1.rows
        = open_sink_state.rows ++ [CsvRow.data r]) ↔
      30 ≤ (mk_conf_profile 40).confidence.getD 0) :=
  ⟨rfl, C2_amended_hardcoded_threshold.1 open_sink_state 0 (mk_conf_profile 40)
    none none rfl⟩

/-- C3: the claim says the configurator pushes the speed of sound in
integer mm/s, e.g. 343000 for a configured 343.0 m/s; the code calls
`set_speed_of_sound(int(self.speed_of_sound))` (line 118), pushing the
untruncated-unit value 343, not 343000. -/
theorem C3_speed_of_sound_sent_unconverted :
    (init ({} : InitParams) true).1.head? =
      some (DeviceCall.set_speed_of_sound 343) ∧ (343 : ℤ) ≠ 343000 := by
  constructor
  · norm_num [init, gain_dict, set_device_properties, write_to_csv, pyInt,
      clamp_poll_rate]
  · decide

/-- C4: the `speed_of_sound` value produced by `range_callback` is `None`
regardless of the speed-of-sound query result: the returned triple always
carries `none`, and any row the cycle appends to the sink has
`speed_of_sound = none`, because line 185 tests the still-`None` local
variable instead of `speed_of_sound_info`. -/
theorem C4_speed_of_sound_always_none :
    ∀ (st : PsoaState) (t : ℚ) (data : Option ProfileData)
      (sos : Option SosInfo) (gi : Option GeneralInfo),
    (∀ dd g s, (range_callback st t data sos gi).2 = .ok (dd, g, s) → s = none) ∧
    ((range_callback st t data sos gi).1.rows = st.rows ∨
      ∃ r, (range_callback st t data sos gi).1.rows = st.rows ++ [CsvRow.data r] ∧
        r.speed_of_sound = none) := by
  intro st t data sos gi
  cases data with
  | none =>
    rw [range_callback_no_data]
    exact ⟨fun dd g s h => by simp at h, Or.inl rfl⟩
  | some d =>
    constructor
    · intro dd g s h
      rw [range_callback_ret_data] at h
      split at h
      · simp at h
      · split at h
        · simp at h
        · simp only [Except.ok.injEq, Prod.mk.injEq] at h
          exact h.2.2.symm
    · rw [range_callback_state_data]
      by_cases hc : (30 : ℤ) ≤ d.confidence.getD 0
      · by_cases hcsv : st.csv_file = true
        · right
          exact ⟨mk_row t d gi, by simp [hc, write_to_csv, hcsv], rfl⟩
        · left
          simp [hc, write_to_csv, hcsv]
      · left
        simp [hc]

/-- C4 witness: a cycle with profile data present and a non-empty
speed-of-sound response (1481000 mm/s) still returns `none` for the
speed of sound. -/
theorem C4_speed_of_sound_always_none_witness :
    ((range_callback open_sink_state 0 (some c4_profile) (some c4_sos) none).2 =
      .ok (some c4_profile, none, none)) ∧ (none : Option ℚ) = none := by
  refine ⟨?_, ?_⟩
  · rw [range_callback_ret_data]
    norm_num [open_sink_state]
  · exact (C4_speed_of_sound_always_none open_sink_state 0 (some c4_profile)
      (some c4_sos) none).1 (some c4_profile) none none
      (by rw [range_callback_ret_data]; norm_num [open_sink_state])

/-- C5: for every gain index outside the seven-entry table, construction
raises with an empty device-call trace (no configuration write was
issued); likewise, when device initialization reports failure,
construction raises with an empty trace. -/
theorem C5_fatal_before_any_device_write :
    ∀ (p : InitParams) (ok : Bool),
    (p.gain ∉ ([0, 1, 2, 3, 4, 5, 6] : List ℤ) →
      (init p ok).1 = [] ∧ ∃ e, (init p ok).2 = .error e) ∧
    (p.device_type = "Ping1D" →
      (init p false).1 = [] ∧ ∃ e, (init p false).2 = .error e) := by
  intro p ok
  constructor
  · intro hg
    have hnone : gain_dict p.gain = none := by
      simp only [List.mem_cons, List.not_mem_nil, or_false, not_or] at hg
      obtain ⟨h0, h1, h2, h3, h4, h5, h6⟩ := hg
      simp [gain_dict, h0, h1, h2, h3, h4, h5, h6]
    by_cases hp : p.device_type = "Ping1D" ∧ ok = false
    · simp [init, hp]
    · simp [init, hp, hnone]
  · intro hd
    simp [init, hd]

/-- C5 witness: gain index 7 is outside the table, and construction with
it raises with an empty device-call trace. -/
theorem C5_fatal_before_any_device_write_witness :
    ((7 : ℤ) ∉ ([0, 1, 2, 3, 4, 5, 6] : List ℤ)) ∧
    (init { gain := 7 } true).1 = [] ∧
    ∃ e, (init { gain := 7 } true).2 = .error e := by
  have h7 : (7 : ℤ) ∉ ([0, 1, 2, 3, 4, 5, 6] : List ℤ) := by decide
  exact ⟨h7, (C5_fatal_before_any_device_write { gain := 7 } true).1 h7⟩

/-- C6: after a successful construction, the sink holds exactly the header
row when a non-empty CSV path was supplied, and is closed and empty when
the path was the empty string, in which case `write_to_csv` is a no-op for
every row; data rows are only ever appended after the header. -/
theorem C6_header_once_and_empty_path_no_writes :
    ∀ (p : InitParams) (ok : Bool) (tr : List DeviceCall) (st : PsoaState),
    init p ok = (tr, .ok st) →
    (p.csv_path.length > 0 → st.csv_file = true ∧ st.rows = [CsvRow.header]) ∧
    (p.csv_path = "" → st.csv_file = false ∧ st.rows = [] ∧
      ∀ row, write_to_csv st row = st) ∧
    (∀ (st' : PsoaState) (row : CsvRow), st'.csv_file = true →
      (write_to_csv st' row).rows = st'.rows ++ [row]) := by
  intro p ok tr st h
  have hgen : ∀ (st' : PsoaState) (row : CsvRow), st'.csv_file = true →
      (write_to_csv st' row).rows = st'.rows ++ [row] := by
    intro st' row hcsv
    simp [write_to_csv, hcsv]
  simp only [init] at h
  split_ifs at h with h1 h2 h3 h4
  · simp at h
  · simp at h
  · simp only [Prod.mk.injEq, Except.ok.injEq] at h
    obtain ⟨-, hst⟩ := h
    subst hst
    refine ⟨fun _ => ?_, fun hp => ?_, hgen⟩
    · simp [write_to_csv]
    · rw [hp] at h4
      simp at h4
  · simp only [Prod.mk.injEq, Except.ok.injEq] at h
    obtain ⟨-, hst⟩ := h
    subst hst
    exact ⟨fun hp => absurd hp h4,
      fun _ => ⟨rfl, rfl, fun row => by simp [write_to_csv]⟩, hgen⟩
  · simp at h

/-- C6 witness: construction with path "T" succeeds with an open sink
holding exactly the header row. -/
theorem C6_header_once_and_empty_path_no_writes_witness :
    (("T" : String).length > 0) ∧
    ((init { csv_path := "T" } true).2.toOption.map PsoaState.csv_file =
      some true) ∧
    ((init { csv_path := "T" } true).2.toOption.map PsoaState.rows =
      some [CsvRow.header]) := by
  obtain ⟨tr, st2, h⟩ : ∃ tr st2, init { csv_path := "T" } true = (tr, .ok st2) :=
    ⟨_, _, rfl⟩
  have h2 := (C6_header_once_and_empty_path_no_writes _ true _ _ h).1 (by decide)
  refine ⟨by decide, ?_, ?_⟩ <;>
    · rw [h]
      simp [Except.toOption, h2.1, h2.2]

/-- C7: the effective poll rate stored after construction is 5 for inputs
at most 5, 30 for inputs at least 30, and the input itself strictly in
between. -/
theorem C7_poll_rate_clamped :
    ∀ (q : ℚ),
    ((init { poll_rate := q } true).2.toOption.map PsoaState.poll_rate) =
      some (if q ≤ 5 then (5 : ℚ) else if q ≥ 30 then 30 else q) := by
  intro q
  simp [init, gain_dict, write_to_csv, clamp_poll_rate, Except.toOption]

/-- C8: with profile data present, the derived max range equals the
converted scan start plus the converted scan length (both in meters), and
that is the value carried by any row the cycle writes. -/
theorem C8_max_range_is_sum :
    ∀ (st : PsoaState) (t : ℚ) (d : ProfileData) (sos : Option SosInfo)
      (gi : Option GeneralInfo),
    0 ≤ (d.scan_start.getD 0 : ℤ) → 0 ≤ (d.scan_length.getD 0 : ℤ) →
    ((profile_fields d).max_range =
      ((d.scan_start.getD 0 : ℤ) : ℚ) * MM_TO_M +
        ((d.scan_length.getD 0 : ℤ) : ℚ) * MM_TO_M) ∧
    (st.csv_file = true → 30 ≤ d.confidence.getD 0 →
      (range_callback st t (some d) sos gi).1.rows =
        st.rows ++ [CsvRow.data (mk_row t d gi)] ∧
      (mk_row t d gi).max_range =
        some (((d.scan_start.getD 0 : ℤ) : ℚ) * MM_TO_M +
          ((d.scan_length.getD 0 : ℤ) : ℚ) * MM_TO_M)) := by
  intro st t d sos gi hs hl
  refine ⟨rfl, fun hcsv hc => ⟨?_, rfl⟩⟩
  rw [range_callback_state_data]
  simp [hc, write_to_csv, hcsv]

/-- C8 witness: scan start 1000 mm and scan length 19000 mm give a max
range of 1000·0.001 + 19000·0.001 meters. -/
theorem C8_max_range_is_sum_witness :
    (0 ≤ (c8_profile.scan_start.getD 0 : ℤ)) ∧
    (30 ≤ c8_profile.confidence.getD 0) ∧
    (profile_fields c8_profile).max_range =
      (1000 : ℚ) * MM_TO_M + (19000 : ℚ) * MM_TO_M := by
  have h := C8_max_range_is_sum open_sink_state 0 c8_profile none none
    (by norm_num [c8_profile]) (by norm_num [c8_profile])
  refine ⟨by norm_num [c8_profile], by norm_num [c8_profile], ?_⟩
  have h1 := h.1
  norm_num [c8_profile] at h1 ⊢
  exact h1

/-- C9: in the exact rational semantics of the embedding, the
millimeter-to-meter conversion is exact: the distance (and the other
millimeter quantities) are multiplied by `MM_TO_M`, which equals 1/1000,
so `distance_m = distance_mm * 0.001` for every integer. -/
theorem C9_mm_to_m_conversion_exact :
    ∀ (n : ℤ) (d : ProfileData), d.distance = some n →
    MM_TO_M = 1 / 1000 ∧
    (profile_fields d).distance = (n : ℚ) * MM_TO_M ∧
    (n : ℚ) * MM_TO_M = (n : ℚ) / 1000 ∧
    (profile_fields d).scan_start = ((d.scan_start.getD 0 : ℤ) : ℚ) * MM_TO_M ∧
    (profile_fields d).scan_length = ((d.scan_length.getD 0 : ℤ) : ℚ) * MM_TO_M := by
  intro n d hd
  have hmm : MM_TO_M = 1 / 1000 := by norm_num [MM_TO_M]
  refine ⟨hmm, by simp [profile_fields, hd], ?_, rfl, rfl⟩
  rw [hmm]
  ring

/-- C9 witness: the conversion at 15953 mm and at 0 mm. -/
theorem C9_mm_to_m_conversion_exact_witness :
    (c9_profile.distance = some 15953) ∧
    (profile_fields c9_profile).distance = (15953 : ℚ) * MM_TO_M ∧
    (15953 : ℚ) * MM_TO_M = (15953 : ℚ) / 1000 ∧
    (profile_fields { distance := some 0 } : ProfileFields).distance =
      (0 : ℚ) * MM_TO_M := by
  have h := C9_mm_to_m_conversion_exact 15953 c9_profile rfl
  have h0 := C9_mm_to_m_conversion_exact 0 { distance := some 0 } rfl
  refine ⟨rfl, ?_, h.2.2.1, ?_⟩
  · have := h.2.1
    norm_num at this ⊢
    exact this
  · have := h0.2.1
    norm_num at this ⊢
    exact this

/-- C10: when both the profile query and the general-info query return
data, the gain written to the sink is the general-info value (default 0),
overwriting the profile gain; the profile gain reaches the sink only when
the general-info query returns no data. -/
theorem C10_gain_setting_overwritten_by_general_info :
    ∀ (st : PsoaState) (t : ℚ) (d : ProfileData) (sos : Option SosInfo)
      (g : GeneralInfo),
    st.csv_file = true → 30 ≤ d.confidence.getD 0 →
    ((range_callback st t (some d) sos (some g)).1.rows =
        st.rows ++ [CsvRow.data (mk_row t d (some g))] ∧
      (mk_row t d (some g)).gain_setting = some (g.gain_setting.getD 0)) ∧
    ((range_callback st t (some d) sos none).1.rows =
        st.rows ++ [CsvRow.data (mk_row t d none)] ∧
      (mk_row t d none).gain_setting = some (d.gain_setting.getD 0)) := by
  intro st t d sos g hcsv hc
  refine ⟨⟨?_, rfl⟩, ⟨?_, rfl⟩⟩ <;>
    · rw [range_callback_state_data]
      simp [hc, write_to_csv, hcsv]

/-- C10 witness: profile gain 3 and general-info gain 5 give a written
gain of 5 with general info present and 3 without it. -/
theorem C10_gain_setting_overwritten_by_general_info_witness :
    open_sink_state.csv_file = true ∧
    (30 ≤ c10_profile.confidence.getD 0) ∧
    (mk_row 0 c10_profile (some c10_info)).gain_setting = some 5 ∧
    (mk_row 0 c10_profile none).gain_setting = some 3 := by
  have h := C10_gain_setting_overwritten_by_general_info open_sink_state 0
    c10_profile none c10_info rfl (by norm_num [c10_profile])
  refine ⟨rfl, by norm_num [c10_profile], ?_, ?_⟩
  · rw [h.1.2]
    norm_num [c10_info]
  · rw [h.2.2]
    norm_num [c10_profile]

end PingSonarObstacleAvoidance
